import Mathlib

/-!
Shallow embedding of the `file-uploader` React components
(`src/unnamed/part_000` and `src/unnamed/part_001`, two variants of the
same widget sharing the container logic verbatim).

Modelling conventions:
* A JavaScript `File` object (extended in place by `Object.assign` with an
  optional `preview` object-URL) is a `FileW`.  JavaScript reference
  equality (`===`) is modelled by the field `oid` (object identity): two
  occurrences with the same `oid` denote the same heap object.
* `URL.createObjectURL` is modelled by a fresh-number supply (`nextUrl`);
  `URL.revokeObjectURL u` is modelled by appending `u` to a `revoked` log,
  so the log records every release call in order (a URI released twice
  appears twice).
* `toast.error msg` is modelled by appending `msg` to a `toasts` log.
* React's `useEffect(..., [files])` re-runs on every `setFiles` (each call
  builds a fresh array, which never compares `Object.is`-equal to the old
  one): the cleanup of the previously registered effect fires, releasing
  the previews of the file list that effect had captured (`effectFiles`),
  and the new effect captures the new list.  On unmount the cleanup of the
  current effect fires.
-/

/-- A browser `File`, possibly carrying a `preview` object URL
(`FileWithPreview` in the source).  `oid` is the JavaScript object
identity. -/
structure FileW where
  oid : Nat
  name : String
  size : Nat
  mime : String
  preview : Option Nat
deriving DecidableEq, Repr

/-- Object identities of a file list. -/
def ids (l : List FileW) : List Nat := l.map FileW.oid

/-- State of one mounted `FileUploader` container. -/
structure ContainerState where
  /-- the canonical file collection (`files` of `useControllableState`) -/
  files : List FileW
  /-- the file list captured by the currently registered effect -/
  effectFiles : List FileW
  /-- fresh supply for `URL.createObjectURL` -/
  nextUrl : Nat
  /-- log of `URL.revokeObjectURL` calls, in order -/
  revoked : List Nat
  /-- log of `toast.error` messages, in order -/
  toasts : List String
  mounted : Bool
deriving DecidableEq, Repr

/-- Container state right after mount: the effect has run once and
captured the initial list; nothing released, nothing toasted. -/
def initState (initial : List FileW) : ContainerState :=
  { files := initial
    effectFiles := initial
    nextUrl := 0
    revoked := []
    toasts := []
    mounted := true }

/-- `acceptedFiles.map((file) => Object.assign(file, { preview:
URL.createObjectURL(file) }))`: attach a fresh object URL to each accepted
file, in order; returns the new entries and the next fresh URL. -/
def attachAll : Nat → List FileW → List FileW × Nat
  | u, [] => ([], u)
  | u, f :: fs =>
    let rest := attachAll (u + 1) fs
    ({ f with preview := some u } :: rest.1, rest.2)

/-- The toast emitted per rejected file:
`` toast.error(`File ${file.name} was rejected`) ``. -/
def errMsg (f : FileW) : String := "File " ++ f.name ++ " was rejected"

/-- The `onDrop` callback body (lines 218-235 of part_001, 160-177 of
part_000): append the accepted files with fresh previews, then toast one
error per rejected file (the source guards the loop with
`rejectedFiles.length > 0`, which we mirror). -/
def onDrop (s : ContainerState) (accepted rejected : List FileW) :
    ContainerState :=
  let newFiles := attachAll s.nextUrl accepted
  { s with
    files := s.files ++ newFiles.1
    nextUrl := newFiles.2
    toasts :=
      if 0 < rejected.length then s.toasts ++ rejected.map errMsg
      else s.toasts }

/-- `files.filter((file) => file !== fileToRemove)`: drop every entry that
is the same object as `fileToRemove`. -/
def removeFilter (fs : List FileW) (fileToRemove : FileW) : List FileW :=
  fs.filter (fun file => file.oid != fileToRemove.oid)

/-- The `removeFile` callback body (lines 211-216 of part_001, 153-158 of
part_000). -/
def removeFile (s : ContainerState) (fileToRemove : FileW) :
    ContainerState :=
  { s with files := removeFilter s.files fileToRemove }

/-- `files.forEach((file) => { if (file.preview)
URL.revokeObjectURL(file.preview) })`: the previews the effect cleanup
releases. -/
def revokeList (es : List FileW) : List Nat := es.filterMap FileW.preview

/-- One React effect cycle after a `setFiles`-induced re-render: the old
effect's cleanup releases the previews of the list it captured, and the
new effect captures the current list (lines 237-245 of part_001, 179-187
of part_000; the dependency array is `[files]`). -/
def effectCycle (s : ContainerState) : ContainerState :=
  { s with
    revoked := s.revoked ++ revokeList s.effectFiles
    effectFiles := s.files }

/-- UI events that can reach the container. -/
inductive Event where
  | drop (accepted rejected : List FileW)
  | removeClick (f : FileW)
  | unmount
deriving Repr

/-- One step of the mounted container, with the `disabled` prop.

Drops: `disabled` is forwarded to the `Dropzone` element (line 255 of
part_001, 197 of part_000).  Modelled from the spec: the drop library
("delegated to the underlying drop library") delivers no drop events while
disabled — "Disabled state suppresses new drops" — so a disabled container
ignores `drop`.

Remove clicks: part_000 renders the remove button only when
`showRemoveButton && !disabled` (line 277) and part_001 renders
`Primitive.button` with `disabled={disabled}` (line 437); either way a
disabled container receives no remove click, so it ignores `removeClick`.

Any state-changing `setFiles` triggers an `effectCycle` (fresh array ⇒
changed `[files]` dependency).  `unmount` runs the final cleanup. -/
def step (disabled : Bool) (s : ContainerState) : Event → ContainerState
  | .drop accepted rejected =>
    if s.mounted ∧ ¬disabled then effectCycle (onDrop s accepted rejected)
    else s
  | .removeClick f =>
    if s.mounted ∧ ¬disabled then effectCycle (removeFile s f)
    else s
  | .unmount =>
    if s.mounted then
      { s with
        revoked := s.revoked ++ revokeList s.effectFiles
        mounted := false }
    else s

/-- Run a list of events. -/
def run (disabled : Bool) (s : ContainerState) : List Event →
    ContainerState
  | [] => s
  | e :: es => run disabled (step disabled s e) es

/-- The context value handed to children (`FileUploaderContextValue`,
lines 24-41 of part_001 / 23-33 of part_000), restricted to the fields a
child can use to change the collection.  Each mutator maps the current
collection and the child-supplied argument to the new collection. -/
def ctxSetFiles (_current arg : List FileW) : List FileW := arg

/-- The `removeFile` mutator as exposed through the context. -/
def ctxRemoveFile (current : List FileW) (f : FileW) : List FileW :=
  removeFilter current f

/-- A collection transition is an add-on-drop if it appends freshly
previewed accepted files at the tail. -/
def dropReach (s t : List FileW) : Prop :=
  ∃ u accepted, t = s ++ (attachAll u accepted).1

/-- A collection transition is a remove-on-action if it filters out one
object. -/
def removeReach (s t : List FileW) : Prop :=
  ∃ f, t = removeFilter s f

/-- The context fields a consumer reads (`useFileUploader` result),
abbreviated to the data fields. -/
structure FileUploaderCtx where
  files : List FileW
  maxSize : Option Nat
  maxFileCount : Option Nat
  disabled : Bool
deriving Repr

/-- `useFileUploader` (lines 47-53 of part_001, 39-45 of part_000): read
the context; if no provider is above (`context` undefined), throw. -/
def useFileUploader : Option FileUploaderCtx →
    Except String FileUploaderCtx
  | none => .error "useFileUploader must be used within a FileUploader"
  | some context => .ok context

/-- Whether `useFileUploader` returned (rather than threw). -/
def returnsValue : Except String FileUploaderCtx → Bool
  | .ok _ => true
  | .error _ => false

/-- part_000, line 277: the remove button of `FileUploaderItem` is
rendered only when `showRemoveButton && !disabled`. -/
def removeButtonRendered (showRemoveButton disabled : Bool) : Bool :=
  showRemoveButton && !disabled

/-- part_001, line 437: `FileUploaderItemRemove` renders its button with
`disabled={disabled}` taken from the context. -/
def removeButtonDisabledAttr (disabled : Bool) : Bool := disabled

/-- `multiple={maxFileCount ? maxFileCount > 1 : multiple}` (line 254 of
part_001, 196 of part_000), with JavaScript truthiness: `undefined` and
`0` are falsy. -/
def dropzoneMultiple (maxFileCount : Option Nat) (multiple : Bool) :
    Bool :=
  match maxFileCount with
  | some n => if n != 0 then decide (n > 1) else multiple
  | none => multiple

/-- `useFileUploaderDataState` (lines 62-75 of part_001): derive the
`data-state` attribute from the four interaction flags. -/
def useFileUploaderDataState (isDragActive isDragAccept isDragReject
    isFileDialogActive : Bool) : Option String :=
  if isDragActive then some "drag-active"
  else if isDragAccept then some "drag-accept"
  else if isDragReject then some "drag-reject"
  else if isFileDialogActive then some "dialog-active"
  else none

-- Sample concrete files used by witnesses and counterexamples.

/-- A concrete image file (object identity 1). -/
def fA : FileW := ⟨1, "a.png", 10, "image/png", none⟩

/-- A concrete text file (object identity 2). -/
def fB : FileW := ⟨2, "b.txt", 20, "text/plain", none⟩

/-- A concrete pdf file (object identity 3). -/
def fC : FileW := ⟨3, "c.pdf", 30, "application/pdf", none⟩

-- Helper lemmas shared by the claim theorems.

theorem attachAll_ids (u : Nat) (l : List FileW) :
    ids (attachAll u l).1 = ids l := by
  induction l generalizing u with
  | nil => rfl
  | cons f fs ih => simp [attachAll, ids] at ih ⊢; exact ih (u + 1)

theorem attachAll_length (u : Nat) (l : List FileW) :
    (attachAll u l).1.length = l.length := by
  induction l generalizing u with
  | nil => rfl
  | cons f fs ih => simp [attachAll]; exact ih (u + 1)

theorem onDrop_toasts (s : ContainerState) (accepted rejected : List FileW) :
    (onDrop s accepted rejected).toasts = s.toasts ++ rejected.map errMsg := by
  cases rejected <;> simp [onDrop]

theorem step_drop_files (s : ContainerState) (accepted rejected : List FileW)
    (hm : s.mounted = true) :
    (step false s (.drop accepted rejected)).files =
      s.files ++ (attachAll s.nextUrl accepted).1 := by
  simp [step, hm, effectCycle, onDrop]

theorem step_drop_toasts (s : ContainerState) (accepted rejected : List FileW)
    (hm : s.mounted = true) :
    (step false s (.drop accepted rejected)).toasts =
      s.toasts ++ rejected.map errMsg := by
  simp [step, hm, effectCycle, onDrop_toasts]

theorem step_removeClick_files (s : ContainerState) (f : FileW)
    (hm : s.mounted = true) :
    (step false s (.removeClick f)).files = removeFilter s.files f := by
  simp [step, hm, effectCycle, removeFile]

theorem removeFilter_mem (fs : List FileW) (f : FileW) (e : FileW) :
    e ∈ removeFilter fs f ↔ e ∈ fs ∧ e.oid ≠ f.oid := by
  simp [removeFilter]

theorem removeFilter_sublist (fs : List FileW) (f : FileW) :
    (removeFilter fs f).Sublist fs :=
  List.filter_sublist fs

theorem removeFilter_not_present (fs : List FileW) (f : FileW)
    (h : f.oid ∉ ids fs) : removeFilter fs f = fs := by
  refine List.filter_eq_self.mpr (fun e he => ?_)
  simp only [bne_iff_ne, ne_eq, decide_eq_true_eq]
  intro hoid
  exact h (by simpa [ids, hoid.symm] using List.mem_map_of_mem FileW.oid he)

/-- C1: the claim says each entry's preview locator is released exactly
once, and only at removal of the entry or at unmount.  The code violates
this: the cleanup of `useEffect(..., [files])` runs on *every* change of
`files` and releases the previews of the whole previously captured list.
Dropping `fA` and then `fB` releases `fA`'s preview (URL 0) while `fA` is
still in the collection and the container is mounted; the subsequent
unmount releases URL 0 a second time (revoke log `[0, 0, 1]`). -/
theorem c1_preview_revoked_early_and_twice :
    (run false (initState []) [.drop [fA] [], .drop [fB] []]).revoked = [0]
    ∧ (run false (initState []) [.drop [fA] [], .drop [fB] []]).mounted
        = true
    ∧ some 0 ∈
        (run false (initState [])
          [.drop [fA] [], .drop [fB] []]).files.map FileW.preview
    ∧ (run false (initState [])
          [.drop [fA] [], .drop [fB] [], .unmount]).revoked = [0, 0, 1] := by
  decide

/-- C2: for a drop with accepted files `accepted` and rejected files
`rejected`, exactly one error toast is emitted per rejected file (in
order), and no rejected file is added to the collection: the new
collection ids are the old ones plus the accepted ones, so a rejected
file distinct from all of them is still absent afterwards. -/
theorem c2_rejected_excluded_one_toast_each (s : ContainerState)
    (accepted rejected : List FileW) (hm : s.mounted = true) :
    (step false s (.drop accepted rejected)).toasts =
        s.toasts ++ rejected.map errMsg
    ∧ ∀ r ∈ rejected, r.oid ∉ ids s.files → r.oid ∉ ids accepted →
        r.oid ∉ ids (step false s (.drop accepted rejected)).files := by
  refine ⟨step_drop_toasts s accepted rejected hm, fun r _ h1 h2 hmem => ?_⟩
  rw [step_drop_files s accepted rejected hm] at hmem
  simp only [ids, List.map_append, List.mem_append] at hmem
  rcases hmem with h | h
  · exact h1 h
  · have ha := attachAll_ids s.nextUrl accepted
    simp only [ids] at ha
    rw [ha] at h
    exact h2 h

/-- Witness for C2 at a concrete drop: `fB` accepted, `fC` rejected over
an initial collection `[fA]`. -/
theorem c2_witness :
    (step false (initState [fA]) (.drop [fB] [fC])).toasts =
        ["File c.pdf was rejected"]
    ∧ fC.oid ∉ ids (step false (initState [fA]) (.drop [fB] [fC])).files := by
  have h := c2_rejected_excluded_one_toast_each (initState [fA]) [fB] [fC] rfl
  exact ⟨by rw [h.1]; rfl, h.2 fC (by decide) (by decide) (by decide)⟩

/-- C3: a drop delivering `accepted.length` accepted files while the
current length plus that count is under `maxFileCount` grows the
collection by exactly that count. -/
theorem c3_accepted_count_appended (s : ContainerState)
    (accepted rejected : List FileW) (maxFileCount : Nat)
    (hm : s.mounted = true)
    (hc : s.files.length + accepted.length < maxFileCount) :
    (step false s (.drop accepted rejected)).files.length =
      s.files.length + accepted.length := by
  rw [step_drop_files s accepted rejected hm]
  simp [attachAll_length]

/-- Witness for C3: dropping one file over `[fA]` with `maxFileCount = 5`
yields a collection of length 2. -/
theorem c3_witness :
    (step false (initState [fA]) (.drop [fB] [])).files.length = 1 + 1 :=
  c3_accepted_count_appended (initState [fA]) [fB] [] 5 rfl (by decide)

/-- C4: with `disabled` true, a drop event and a remove click leave the
collection unchanged; moreover part_000 does not render the remove button
(`showRemoveButton && !disabled` is false) and part_001 renders it with
the `disabled` attribute set, so removal cannot be triggered. -/
theorem c4_disabled_suppresses_mutation (s : ContainerState)
    (accepted rejected : List FileW) (f : FileW) (sb : Bool) :
    (step true s (.drop accepted rejected)).files = s.files
    ∧ (step true s (.removeClick f)).files = s.files
    ∧ removeButtonRendered sb true = false
    ∧ removeButtonDisabledAttr true = true := by
  refine ⟨?_, ?_, by simp [removeButtonRendered], rfl⟩ <;> simp [step]

/-- C5: a drop appends the accepted files (with previews attached) at the
tail, keeping their acceptance order and identities; a remove produces a
sublist of the previous collection, so the relative order of the
remaining entries is preserved. -/
theorem c5_ordered_append_and_remove (s : ContainerState)
    (accepted rejected : List FileW) (f : FileW) (hm : s.mounted = true) :
    (step false s (.drop accepted rejected)).files =
        s.files ++ (attachAll s.nextUrl accepted).1
    ∧ ids (attachAll s.nextUrl accepted).1 = ids accepted
    ∧ (step false s (.removeClick f)).files.Sublist s.files := by
  refine ⟨step_drop_files s accepted rejected hm,
    attachAll_ids s.nextUrl accepted, ?_⟩
  rw [step_removeClick_files s f hm]
  exact removeFilter_sublist s.files f

/-- Witness for C5 at a concrete state: drop `[fB, fC]` over `[fA]` and
remove `fA` from `[fA]`. -/
theorem c5_witness :
    (step false (initState [fA]) (.drop [fB, fC] [])).files =
        [fA] ++ (attachAll 0 [fB, fC]).1
    ∧ ids (attachAll 0 [fB, fC]).1 = ids [fB, fC]
    ∧ (step false (initState [fA]) (.removeClick fA)).files.Sublist [fA] :=
  c5_ordered_append_and_remove (initState [fA]) [fB, fC] [] fA rfl

/-- C6 counterexample: the context provider also hands children the raw
setter `setFiles` (line 268 of part_001, 204 of part_000).  A child
calling it with `[fB]` over the collection `[fA]` replaces the collection
with `[fB]` — a transition that is neither an add-on-drop (no list
appended to `[fA]` equals `[fB]`) nor a remove-on-action (no filter of
`[fA]` equals `[fB]`).  So the collection is not mutated only by
add-on-drop and remove-on-action. -/
theorem c6_counterexample :
    ctxSetFiles [fA] [fB] = [fB]
    ∧ ¬ dropReach [fA] [fB]
    ∧ ¬ removeReach [fA] [fB] := by
  refine ⟨rfl, ?_, ?_⟩
  · rintro ⟨u, accepted, h⟩
    have hlen := congrArg List.length h
    simp only [List.length_cons, List.length_nil, List.length_append]
      at hlen
    have hat := attachAll_length u accepted
    have hacc : accepted = [] :=
      List.eq_nil_of_length_eq_zero (by omega)
    subst hacc
    simp only [attachAll, List.append_nil] at h
    exact absurd h (by decide)
  · rintro ⟨f, h⟩
    rw [removeFilter, List.filter_cons, List.filter_nil] at h
    by_cases hb : (fA.oid != f.oid) = true
    · rw [if_pos hb] at h
      simp only [List.cons.injEq, and_true] at h
      exact absurd h (by decide)
    · rw [if_neg hb] at h
      simp at h

/-- C6 amended: the collection mutators reachable from child components
through the context are `removeFile`, which is a remove-on-action, and
additionally the raw setter `setFiles`, which can replace the collection
with an arbitrary list (drops reach the container through the `Dropzone`
wiring, not through the context value). -/
theorem c6_context_mutators (current : List FileW) (f : FileW)
    (t : List FileW) :
    removeReach current (ctxRemoveFile current f)
    ∧ ctxSetFiles current t = t :=
  ⟨⟨f, rfl⟩, rfl⟩

/-- C7: consuming the uploader context with no provider above always
throws the descriptive error "useFileUploader must be used within a
FileUploader" and never returns a value. -/
theorem c7_context_miss_throws :
    useFileUploader none =
        .error "useFileUploader must be used within a FileUploader"
    ∧ returnsValue (useFileUploader none) = false
    ∧ "useFileUploader must be used within a FileUploader" ≠ "" := by
  refine ⟨rfl, rfl, ?_⟩; decide

/-- C8: `removeFile` filters by reference equality (object identity): the
result contains exactly the entries that are not the same object as the
argument, in their previous relative order, and removing an object not
present leaves the state unchanged. -/
theorem c8_removeFile_by_reference (s : ContainerState) (f : FileW) :
    (∀ e, e ∈ (removeFile s f).files ↔ e ∈ s.files ∧ e.oid ≠ f.oid)
    ∧ (removeFile s f).files.Sublist s.files
    ∧ (f.oid ∉ ids s.files → removeFile s f = s) := by
  refine ⟨fun e => removeFilter_mem s.files f e,
    removeFilter_sublist s.files f, fun h => ?_⟩
  show { s with files := removeFilter s.files f } = s
  rw [removeFilter_not_present s.files f h]

/-- Witness for C8: removing the absent `fC` from a state holding
`[fA, fB]` changes nothing. -/
theorem c8_witness :
    removeFile (initState [fA, fB]) fC = initState [fA, fB] :=
  (c8_removeFile_by_reference (initState [fA, fB]) fC).2.2 (by decide)

/-- C9: the `multiple` flag handed to `Dropzone` equals
`maxFileCount > 1` whenever `maxFileCount` is set and nonzero — the
caller's `multiple` prop is then ignored — and equals the caller's
`multiple` prop when `maxFileCount` is `undefined` or `0`. -/
theorem c9_multiple_derived_from_count (n : Nat) (m mAlt : Bool) :
    (n ≠ 0 → dropzoneMultiple (some n) m = decide (n > 1)
      ∧ dropzoneMultiple (some n) m = dropzoneMultiple (some n) mAlt)
    ∧ dropzoneMultiple none m = m
    ∧ dropzoneMultiple (some 0) m = m := by
  refine ⟨fun hn => ?_, rfl, rfl⟩
  have hb : (n != 0) = true := by simpa using hn
  constructor <;> simp [dropzoneMultiple, hb]

/-- Witness for C9: with `maxFileCount = 2` the flag is `true` for either
caller value of `multiple`. -/
theorem c9_witness :
    dropzoneMultiple (some 2) false = decide (2 > 1)
    ∧ dropzoneMultiple (some 2) false = dropzoneMultiple (some 2) true :=
  (c9_multiple_derived_from_count 2 false true).1 (by decide)

/-- C10: the derived `data-state` is a deterministic function of the four
flags with fixed priority: `drag-active` whenever `isDragActive`,
else `drag-accept` if `isDragAccept`, else `drag-reject` if
`isDragReject`, else `dialog-active` if `isFileDialogActive`, else
undefined. -/
theorem c10_data_state_priority (a b c d : Bool) :
    (a = true → useFileUploaderDataState a b c d = some "drag-active")
    ∧ (a = false → b = true →
        useFileUploaderDataState a b c d = some "drag-accept")
    ∧ (a = false → b = false → c = true →
        useFileUploaderDataState a b c d = some "drag-reject")
    ∧ (a = false → b = false → c = false → d = true →
        useFileUploaderDataState a b c d = some "dialog-active")
    ∧ (a = false → b = false → c = false → d = false →
        useFileUploaderDataState a b c d = none) := by
  cases a <;> cases b <;> cases c <;> cases d <;>
    simp [useFileUploaderDataState]

/-- Witness for C10: with every flag raised the state is `drag-active`. -/
theorem c10_witness :
    useFileUploaderDataState true true true true = some "drag-active" :=
  (c10_data_state_priority true true true true).1 rfl
